import Mathlib

/-!
Shallow embedding of src/binance_p2p_python.py, a small Binance P2P rate
aggregator: an HTTP fetch helper (fetch_with_timeout), a per-direction
fetch-and-average function (fetch_trade_type_average) and an aggregator
(get_binance_p2p_rate) that combines the two directional averages into a
record of optional rounded values.

Numeric values are modelled as rationals.  The Python round function at 2 digits is modelled
as round-half-to-even on the value scaled by 100 (bankers rounding, the
semantics of the Python built-in round).  Network effects are modelled by an
explicit outcome type: a directional request either fails with one of the
exception classes the source catches (connection error, timeout, malformed
JSON body) or yields a parsed response object.  Prices inside a response
entry are modelled as already parsed optional rationals: a None price stands
for a value on which float conversion of ad.adv.price raises.

The structural behaviour (which branches run, which fields are absent) does
not depend on the difference between exact rationals and IEEE-754 doubles,
so the record-level functions compute exactly.  Concrete decimal outputs do
depend on it: the source computes in binary64 doubles, and a second layer
below (fl and the F-suffixed functions) models that arithmetic exactly,
since every double is a rational and rounding to nearest-even double is a
function on rationals.  That layer settles the Scenario A values.
-/

namespace BinanceP2P

/-- One advertisement entry of the data list of the response.  The source reads
float of ad.adv.price; the field holds the parse result, none when the
conversion raises. -/
structure AdEntry where
  price : Option ℚ
  deriving DecidableEq, Repr

/-- The parsed JSON response of the advertisement-search endpoint, with the
three fields the source reads via data.get: the status code string, the
boolean success flag and the advertisement list.  A missing field is none. -/
structure P2PResponse where
  code : Option String
  success : Option Bool
  data : Option (List AdEntry)
  deriving DecidableEq, Repr

/-- Outcome of one HTTP round trip as seen by fetch_trade_type_average: one
of the exception classes swallowed by its except-clause, or a parsed
response object. -/
inductive FetchOutcome where
  | connectionError
  | timeoutError
  | invalidJson
  | ok (resp : P2PResponse)
  deriving DecidableEq, Repr

/-- The request issued by the HTTP helper: a POST carrying the body, or a
GET without one. -/
inductive HttpRequest where
  | post (url : String) (headers : List (String × String)) (body : Option String)
  | get (url : String) (headers : List (String × String))
  deriving DecidableEq, Repr

/-- The Python method.upper() call: upper-case every character of the
string. -/
def pyUpper (s : String) : String :=
  ⟨s.data.map Char.toUpper⟩

/-- fetch_with_timeout (src lines 6-17), modelled by the request it issues:
it POSTs the body exactly when the upper-cased method equals POST, and otherwise
performs a GET that never looks at the body. -/
def fetch_with_timeout (url : String) (method : String)
    (headers : List (String × String)) (data : Option String) : HttpRequest :=
  if pyUpper method = "POST" then
    HttpRequest.post url headers data
  else
    HttpRequest.get url headers

/-- Round-half-to-even to the nearest integer, the rounding used by the Python
built-in round. -/
def roundHalfEvenZ (q : ℚ) : ℤ :=
  let f := ⌊q⌋
  let r := q - (f : ℚ)
  if r < 1/2 then f
  else if 1/2 < r then f + 1
  else if f % 2 = 0 then f else f + 1

/-- The Python round(x, 2): round-half-to-even at two decimal places. -/
def pyRound2 (q : ℚ) : ℚ :=
  (roundHalfEvenZ (q * 100) : ℚ) / 100

/-- The list comprehension over the data list collecting float prices
(src line 53): collects every parsed price, and yields none as soon as one
price raises, modelling the exception escaping the comprehension. -/
def parsePrices : List AdEntry → Option (List ℚ)
  | [] => some []
  | e :: es =>
    match e.price, parsePrices es with
    | some p, some ps => some (p :: ps)
    | _, _ => none

/-- fetch_trade_type_average (src lines 26-60): validates the response
(is_success and has_data, src lines 49-50), averages the parsed prices on
success, and converts every failure mode into none via its except-clause. -/
def fetch_trade_type_average (outcome : FetchOutcome) : Option ℚ :=
  match outcome with
  | .connectionError => none
  | .timeoutError => none
  | .invalidJson => none
  | .ok resp =>
    match resp.data with
    | none => none
    | some l =>
      if (resp.code = some "000000" ∨ resp.success = some true) ∧ l ≠ [] then
        match parsePrices l with
        | some prices => some (prices.sum / (prices.length : ℚ))
        | none => none
      else
        none

/-- The record returned by the aggregator: three optional rounded values. -/
structure RateResult where
  buy : Option ℚ
  sell : Option ℚ
  average : Option ℚ
  deriving DecidableEq, Repr

/-- The conditional expression round(v, 2) if v else None (src lines 87-88):
Python truthiness treats both None and 0.0 as falsy. -/
def roundIfTruthy : Option ℚ → Option ℚ
  | none => none
  | some v => if v = 0 then none else some (pyRound2 v)

/-- The result-assembly step of get_binance_p2p_rate (src lines 70-100):
the branch on if buy_avg and sell_avg (Python truthiness, so a 0.0 average
takes the degraded branch), the full result with all three values rounded,
and the degraded result with a none market average. -/
def assembleResult (buy_avg sell_avg : Option ℚ) : RateResult :=
  match buy_avg, sell_avg with
  | some bv, some sv =>
    if bv ≠ 0 ∧ sv ≠ 0 then
      let market_average := (bv + sv) / 2
      { buy := some (pyRound2 bv)
        sell := some (pyRound2 sv)
        average := some (pyRound2 market_average) }
    else
      { buy := roundIfTruthy (some bv)
        sell := roundIfTruthy (some sv)
        average := none }
  | b, s =>
      { buy := roundIfTruthy b
        sell := roundIfTruthy s
        average := none }

/-- get_binance_p2p_rate (src lines 19-104): gathers the two directional
fetches and assembles the record; orchException models an exception raised
by the orchestration itself (the gather or the assembly), which the outer
except-clause converts to a none result. -/
def get_binance_p2p_rate (orchException : Bool)
    (buyOutcome sellOutcome : FetchOutcome) : Option RateResult :=
  if orchException then
    none
  else
    let buy_avg := fetch_trade_type_average buyOutcome
    let sell_avg := fetch_trade_type_average sellOutcome
    some (assembleResult buy_avg sell_avg)

/-- Spec-side validation predicate, the success condition of section 4.2 of
the specification: a status code equal to "000000" or a true success flag,
and a non-empty data list. -/
def responseValid (resp : P2PResponse) : Prop :=
  (resp.code = some "000000" ∨ resp.success = some true) ∧
    ∃ l, resp.data = some l ∧ l ≠ []

instance (resp : P2PResponse) : Decidable (responseValid resp) :=
  decidable_of_iff
    ((resp.code = some "000000" ∨ resp.success = some true) ∧ resp.data.getD [] ≠ [])
    (by
      constructor
      · rintro ⟨h1, h2⟩
        refine ⟨h1, ?_⟩
        cases hd : resp.data with
        | none => simp [hd] at h2
        | some l => exact ⟨l, rfl, by simpa [hd] using h2⟩
      · rintro ⟨h1, l, hd, hl⟩
        exact ⟨h1, by simp [hd, hl]⟩)

/-- Spec-side success predicate for a whole directional fetch: a response
arrived, it validates, and every price parses. -/
def fetchSucceeds (outcome : FetchOutcome) : Prop :=
  ∃ resp l ps, outcome = FetchOutcome.ok resp ∧ responseValid resp ∧
    resp.data = some l ∧ parsePrices l = some ps

/-- Rounding of a rational to the nearest IEEE-754 binary64 double, ties to
even, expressed on exact rationals: the unit in the last place of a nonzero
normal number q is 2 to the power of the binary exponent of q minus 52, and
the nearest double is the nearest-even multiple of it.  Subnormal and
overflow behaviour lies outside the range this development uses (every value
here is near 36 or near 73). -/
def fl (q : ℚ) : ℚ :=
  if q = 0 then 0
  else (roundHalfEvenZ (q / 2 ^ (Int.log 2 |q| - 52)) : ℚ) * 2 ^ (Int.log 2 |q| - 52)

/-- One double-precision addition: the exact sum rounded to the nearest
double. -/
def addF (a b : ℚ) : ℚ := fl (a + b)

/-- One double-precision division: the exact quotient rounded to the nearest
double. -/
def divF (a b : ℚ) : ℚ := fl (a / b)

/-- The Python sum() over doubles: a left fold of double addition starting
at 0. -/
def sumF (l : List ℚ) : ℚ := l.foldl addF 0

/-- The double-precision mean sum(prices) / len(prices) of src line 54. -/
def meanF (l : List ℚ) : ℚ := divF (sumF l) (l.length : ℚ)

/-- The directional average of src lines 53-54 at double precision: float()
parses each decimal price to the nearest double, then the mean is taken in
doubles. -/
def fetchAverageF (prices : List ℚ) : ℚ := meanF (prices.map fl)

/-- The Python round(x, 2) applied to a double: the nearest double to the
ideal two-decimal rounding of the exact value of x (the semantics of the
CPython implementation via correctly rounded decimal conversion). -/
def pyRound2F (q : ℚ) : ℚ := fl (pyRound2 q)

/-- The market average round((buy_avg + sell_avg) / 2, 2) of src lines 71
and 75 at double precision. -/
def marketAverageF (b s : ℚ) : ℚ := pyRound2F (divF (addF b s) 2)

lemma fetch_data_none (resp : P2PResponse) (hd : resp.data = none) :
    fetch_trade_type_average (FetchOutcome.ok resp) = none := by
  simp only [fetch_trade_type_average, hd]

lemma fetch_data_some (resp : P2PResponse) (l : List AdEntry)
    (hd : resp.data = some l) :
    fetch_trade_type_average (FetchOutcome.ok resp) =
      if (resp.code = some "000000" ∨ resp.success = some true) ∧ l ≠ [] then
        (parsePrices l).map (fun ps => ps.sum / (ps.length : ℚ))
      else none := by
  simp only [fetch_trade_type_average, hd]
  by_cases hc : (resp.code = some "000000" ∨ resp.success = some true) ∧ l ≠ []
  · rw [if_pos hc, if_pos hc]
    cases hp : parsePrices l <;> simp [hp]
  · rw [if_neg hc, if_neg hc]

lemma assemble_average_isSome (b s : Option ℚ) :
    ((assembleResult b s).average).isSome ↔
      ((assembleResult b s).buy).isSome ∧ ((assembleResult b s).sell).isSome := by
  rcases b with _ | bv <;> rcases s with _ | sv
  · simp [assembleResult, roundIfTruthy]
  · simp [assembleResult, roundIfTruthy]
  · simp [assembleResult, roundIfTruthy]
  · by_cases hb : bv = 0 <;> by_cases hs : sv = 0 <;>
      simp [assembleResult, roundIfTruthy, hb, hs]

/-- C1: for every invocation of the aggregator that yields a record, the
market average field is present exactly when both the buy and the sell
fields are present. -/
theorem market_average_present_iff (orchE : Bool) (bo so : FetchOutcome)
    (r : RateResult) (h : get_binance_p2p_rate orchE bo so = some r) :
    r.average.isSome ↔ (r.buy.isSome ∧ r.sell.isSome) := by
  cases orchE with
  | true => simp [get_binance_p2p_rate] at h
  | false =>
    have h2 : assembleResult (fetch_trade_type_average bo)
        (fetch_trade_type_average so) = r := by
      simpa [get_binance_p2p_rate] using h
    rw [← h2]
    exact assemble_average_isSome _ _

/-- C1 witness: a concrete invocation in which both fetches fail, so all
three fields are absent and the equivalence is between false sides. -/
theorem market_average_present_iff_witness :
    (({ buy := none, sell := none, average := none } : RateResult).average.isSome ↔
      (({ buy := none, sell := none, average := none } : RateResult).buy.isSome ∧
        ({ buy := none, sell := none, average := none } : RateResult).sell.isSome)) :=
  market_average_present_iff false FetchOutcome.connectionError
    FetchOutcome.connectionError
    { buy := none, sell := none, average := none } rfl

/-- C2: a successful directional fetch of prices ps returns the exact,
unrounded arithmetic mean of ps. -/
theorem directional_average_exact_mean (resp : P2PResponse) (l : List AdEntry)
    (ps : List ℚ) (hd : resp.data = some l)
    (hok : resp.code = some "000000" ∨ resp.success = some true)
    (hne : l ≠ []) (hp : parsePrices l = some ps) :
    fetch_trade_type_average (FetchOutcome.ok resp) =
      some (ps.sum / (ps.length : ℚ)) := by
  rw [fetch_data_some resp l hd, if_pos ⟨hok, hne⟩, hp]
  rfl

/-- C2 witness: a concrete fetch of the prices 5 and 7 returns their exact
mean 6. -/
theorem directional_average_exact_mean_witness :
    fetch_trade_type_average (FetchOutcome.ok
      { code := some "000000", success := none,
        data := some [⟨some 5⟩, ⟨some 7⟩] }) = some 6 := by
  have h := directional_average_exact_mean
    { code := some "000000", success := none, data := some [⟨some 5⟩, ⟨some 7⟩] }
    [⟨some 5⟩, ⟨some 7⟩] [5, 7] rfl (Or.inl rfl) (by simp) rfl
  rw [h]
  norm_num

/-- C4: whenever a directional fetch does not fully succeed (exception,
failed validation, or a price parse error), the fetcher returns none rather
than propagating an error. -/
theorem fetch_failure_returns_none (o : FetchOutcome) (h : ¬ fetchSucceeds o) :
    fetch_trade_type_average o = none := by
  cases o with
  | connectionError => rfl
  | timeoutError => rfl
  | invalidJson => rfl
  | ok resp =>
    cases hd : resp.data with
    | none => exact fetch_data_none resp hd
    | some l =>
      rw [fetch_data_some resp l hd]
      by_cases hc : (resp.code = some "000000" ∨ resp.success = some true) ∧ l ≠ []
      · rw [if_pos hc]
        cases hp : parsePrices l with
        | none => rfl
        | some ps =>
          exact absurd ⟨resp, l, ps, rfl, ⟨hc.1, l, hd, hc.2⟩, hd, hp⟩ h
      · rw [if_neg hc]

/-- C4 witness: a timed-out fetch returns none. -/
theorem fetch_failure_returns_none_witness :
    fetch_trade_type_average FetchOutcome.timeoutError = none :=
  fetch_failure_returns_none FetchOutcome.timeoutError
    (by rintro ⟨resp, l, ps, heq, hv, hd, hp⟩; simp at heq)

/-- C5: a response is treated as successful, with its prices extracted and
averaged, exactly under the validation predicate (status code "000000" or a
true success flag, and a non-empty data list); any response failing
validation yields none. -/
theorem validation_gates_extraction (resp : P2PResponse) :
    (∀ l, resp.data = some l → responseValid resp →
        fetch_trade_type_average (FetchOutcome.ok resp) =
          (parsePrices l).map (fun ps => ps.sum / (ps.length : ℚ))) ∧
    (¬ responseValid resp → fetch_trade_type_average (FetchOutcome.ok resp) = none) := by
  constructor
  · intro l hd hv
    have hcond : (resp.code = some "000000" ∨ resp.success = some true) ∧ l ≠ [] := by
      rcases hv with ⟨h1, m, hm, hne⟩
      rw [hd] at hm
      injection hm with hm
      exact ⟨h1, hm ▸ hne⟩
    rw [fetch_data_some resp l hd, if_pos hcond]
  · intro hv
    cases hd : resp.data with
    | none => exact fetch_data_none resp hd
    | some l =>
      have hcond : ¬ ((resp.code = some "000000" ∨ resp.success = some true) ∧ l ≠ []) := by
        rintro ⟨h1, hne⟩
        exact hv ⟨h1, l, hd, hne⟩
      rw [fetch_data_some resp l hd, if_neg hcond]

/-- C5 witness: a concrete valid response with the single price 5 is
extracted and averaged to 5. -/
theorem validation_gates_extraction_witness :
    responseValid { code := some "000000", success := none, data := some [⟨some 5⟩] } ∧
    fetch_trade_type_average (FetchOutcome.ok
      { code := some "000000", success := none, data := some [⟨some 5⟩] }) = some 5 := by
  have hv : responseValid
      { code := some "000000", success := none, data := some [⟨some 5⟩] } :=
    ⟨Or.inl rfl, [⟨some 5⟩], rfl, by simp⟩
  refine ⟨hv, ?_⟩
  have h := (validation_gates_extraction
    { code := some "000000", success := none, data := some [⟨some 5⟩] }).1
    [⟨some 5⟩] rfl hv
  rw [h]
  norm_num [parsePrices]

/-- C6: when both directional fetches return none (for example, both
responses carry an empty data list), the aggregator still returns a record,
with all three fields absent, and not the null outcome. -/
theorem both_invalid_degraded_record (bo so : FetchOutcome)
    (hb : fetch_trade_type_average bo = none)
    (hs : fetch_trade_type_average so = none) :
    get_binance_p2p_rate false bo so =
      some { buy := none, sell := none, average := none } := by
  simp [get_binance_p2p_rate, hb, hs, assembleResult, roundIfTruthy]

/-- C6 witness: two concrete responses with empty data lists yield the
all-absent record. -/
theorem both_invalid_degraded_record_witness :
    get_binance_p2p_rate false
      (FetchOutcome.ok { code := some "000000", success := none, data := some [] })
      (FetchOutcome.ok { code := none, success := some true, data := some [] }) =
      some { buy := none, sell := none, average := none } :=
  both_invalid_degraded_record
    (FetchOutcome.ok { code := some "000000", success := none, data := some [] })
    (FetchOutcome.ok { code := none, success := some true, data := some [] })
    rfl rfl

/-- C7: an exception escaping the orchestration itself makes the aggregator
return none, which is never equal to any record result. -/
theorem orch_exception_null_result (bo so : FetchOutcome) :
    get_binance_p2p_rate true bo so = none ∧
      ∀ r : RateResult, get_binance_p2p_rate true bo so ≠ some r := by
  refine ⟨rfl, ?_⟩
  intro r h
  exact Option.noConfusion h

/-- C8: a directional fetch that succeeds with the exact average 0 is
treated as absent by the assembly: the corresponding field of the record is
none and the market average is none. -/
theorem zero_average_treated_absent (bo so : FetchOutcome) :
    (fetch_trade_type_average bo = some 0 →
      ∀ r, get_binance_p2p_rate false bo so = some r →
        r.buy = none ∧ r.average = none) ∧
    (fetch_trade_type_average so = some 0 →
      ∀ r, get_binance_p2p_rate false bo so = some r →
        r.sell = none ∧ r.average = none) := by
  constructor
  · intro hb r hr
    have h2 : assembleResult (some 0) (fetch_trade_type_average so) = r := by
      simpa [get_binance_p2p_rate, hb] using hr
    rw [← h2]
    cases hs : fetch_trade_type_average so with
    | none => simp [assembleResult, roundIfTruthy]
    | some sv => simp [assembleResult, roundIfTruthy]
  · intro hs r hr
    have h2 : assembleResult (fetch_trade_type_average bo) (some 0) = r := by
      simpa [get_binance_p2p_rate, hs] using hr
    rw [← h2]
    cases hb : fetch_trade_type_average bo with
    | none => simp [assembleResult, roundIfTruthy]
    | some bv => simp [assembleResult, roundIfTruthy]

/-- C8 witness: a concrete BUY response averaging exactly 0 next to a SELL
response averaging 37 yields a record with buy and average absent. -/
theorem zero_average_treated_absent_witness :
    fetch_trade_type_average (FetchOutcome.ok
      { code := some "000000", success := none, data := some [⟨some 0⟩] }) = some 0 ∧
    ({ buy := none, sell := some 37, average := none } : RateResult).buy = none ∧
    ({ buy := none, sell := some 37, average := none } : RateResult).average = none := by
  have hb : fetch_trade_type_average (FetchOutcome.ok
      { code := some "000000", success := none, data := some [⟨some 0⟩] }) = some 0 := by
    norm_num [fetch_trade_type_average, parsePrices]
  have hget : get_binance_p2p_rate false
      (FetchOutcome.ok { code := some "000000", success := none, data := some [⟨some 0⟩] })
      (FetchOutcome.ok { code := some "000000", success := none, data := some [⟨some 37⟩] }) =
      some { buy := none, sell := some 37, average := none } := by
    norm_num [get_binance_p2p_rate, fetch_trade_type_average, parsePrices,
      assembleResult, roundIfTruthy, pyRound2, roundHalfEvenZ]
  exact ⟨hb, (zero_average_treated_absent
    (FetchOutcome.ok { code := some "000000", success := none, data := some [⟨some 0⟩] })
    (FetchOutcome.ok { code := some "000000", success := none, data := some [⟨some 37⟩] })).1
    hb { buy := none, sell := some 37, average := none } hget⟩

/-- C3 counterexample: both directional averages are present (0 for BUY, 37
for SELL), yet the record does not carry round(0, 2) in the buy field, so
the claim as stated fails; the code returns the degraded record with buy and
average absent. -/
theorem both_present_rounding_cex :
    fetch_trade_type_average (FetchOutcome.ok
      { code := some "000000", success := none, data := some [⟨some 0⟩] }) = some 0 ∧
    fetch_trade_type_average (FetchOutcome.ok
      { code := some "000000", success := none, data := some [⟨some 37⟩] }) = some 37 ∧
    get_binance_p2p_rate false
        (FetchOutcome.ok { code := some "000000", success := none, data := some [⟨some 0⟩] })
        (FetchOutcome.ok { code := some "000000", success := none, data := some [⟨some 37⟩] }) =
      some { buy := none, sell := some 37, average := none } ∧
    ¬ (∀ r : RateResult,
        get_binance_p2p_rate false
            (FetchOutcome.ok { code := some "000000", success := none, data := some [⟨some 0⟩] })
            (FetchOutcome.ok { code := some "000000", success := none, data := some [⟨some 37⟩] }) =
          some r →
          r.buy = some (pyRound2 0) ∧ r.sell = some (pyRound2 37) ∧
            r.average = some (pyRound2 ((0 + 37) / 2))) := by
  have hb : fetch_trade_type_average (FetchOutcome.ok
      { code := some "000000", success := none, data := some [⟨some 0⟩] }) = some 0 := by
    norm_num [fetch_trade_type_average, parsePrices]
  have hs : fetch_trade_type_average (FetchOutcome.ok
      { code := some "000000", success := none, data := some [⟨some 37⟩] }) = some 37 := by
    norm_num [fetch_trade_type_average, parsePrices]
  have hget : get_binance_p2p_rate false
      (FetchOutcome.ok { code := some "000000", success := none, data := some [⟨some 0⟩] })
      (FetchOutcome.ok { code := some "000000", success := none, data := some [⟨some 37⟩] }) =
      some { buy := none, sell := some 37, average := none } := by
    norm_num [get_binance_p2p_rate, fetch_trade_type_average, parsePrices,
      assembleResult, roundIfTruthy, pyRound2, roundHalfEvenZ]
  refine ⟨hb, hs, hget, ?_⟩
  intro hall
  have h := hall { buy := none, sell := some 37, average := none } hget
  exact Option.noConfusion h.1

/-- C3 amended: for every invocation where both directional averages b and s
are present and nonzero, the record carries round(b, 2), round(s, 2) and
round((b + s) / 2, 2). -/
theorem both_present_nonzero_rounding (bo so : FetchOutcome) (b s : ℚ)
    (hb : fetch_trade_type_average bo = some b)
    (hs : fetch_trade_type_average so = some s)
    (hb0 : b ≠ 0) (hs0 : s ≠ 0) :
    get_binance_p2p_rate false bo so =
      some { buy := some (pyRound2 b), sell := some (pyRound2 s),
             average := some (pyRound2 ((b + s) / 2)) } := by
  simp [get_binance_p2p_rate, hb, hs, assembleResult, hb0, hs0]

/-- C3 amended witness: concrete fetches averaging 40 and 30 yield the fully
rounded record. -/
theorem both_present_nonzero_rounding_witness :
    get_binance_p2p_rate false
      (FetchOutcome.ok { code := some "000000", success := none, data := some [⟨some 40⟩] })
      (FetchOutcome.ok { code := some "000000", success := none, data := some [⟨some 30⟩] }) =
      some { buy := some (pyRound2 40), sell := some (pyRound2 30),
             average := some (pyRound2 ((40 + 30) / 2)) } :=
  both_present_nonzero_rounding
    (FetchOutcome.ok { code := some "000000", success := none, data := some [⟨some 40⟩] })
    (FetchOutcome.ok { code := some "000000", success := none, data := some [⟨some 30⟩] })
    40 30
    (by norm_num [fetch_trade_type_average, parsePrices])
    (by norm_num [fetch_trade_type_average, parsePrices])
    (by norm_num) (by norm_num)

lemma int_log_two_eq {r : ℚ} {n : ℤ} (h0 : 0 < r)
    (h1 : (2 : ℚ) ^ n ≤ r) (h2 : r < (2 : ℚ) ^ (n + 1)) :
    Int.log 2 r = n := by
  have ha : n ≤ Int.log 2 r :=
    (Int.zpow_le_iff_le_log (by norm_num) h0).mp (by exact_mod_cast h1)
  have hb : Int.log 2 r < n + 1 :=
    (Int.lt_zpow_iff_log_lt (by norm_num) h0).mp (by exact_mod_cast h2)
  omega

lemma fl_eval {q : ℚ} (n : ℤ) (h0 : 0 < q)
    (h1 : (2 : ℚ) ^ n ≤ q) (h2 : q < (2 : ℚ) ^ (n + 1)) :
    fl q = (roundHalfEvenZ (q / 2 ^ (n - 52)) : ℚ) * 2 ^ (n - 52) := by
  have hlog : Int.log 2 |q| = n := by
    rw [abs_of_pos h0]
    exact int_log_two_eq h0 h1 h2
  unfold fl
  rw [if_neg h0.ne', hlog]

lemma flEval_73_2 : fl (73 / 2 : ℚ) = 73 / 2 := by
  rw [fl_eval 5 (by norm_num) (by norm_num) (by norm_num)]
  norm_num [roundHalfEvenZ]

lemma flEval_183_5 : fl (183 / 5 : ℚ) = 5150992073805005 / 2 ^ 47 := by
  rw [fl_eval 5 (by norm_num) (by norm_num) (by norm_num)]
  norm_num [roundHalfEvenZ]

lemma flEval_182_5 : fl (182 / 5 : ℚ) = 5122844576133939 / 2 ^ 47 := by
  rw [fl_eval 5 (by norm_num) (by norm_num) (by norm_num)]
  norm_num [roundHalfEvenZ]

lemma flEval_184_5 : fl (184 / 5 : ℚ) = 2589569785738035 / 2 ^ 46 := by
  rw [fl_eval 5 (by norm_num) (by norm_num) (by norm_num)]
  norm_num [roundHalfEvenZ]

lemma flEval_369_10 : fl (369 / 10 : ℚ) = 5193213320311603 / 2 ^ 47 := by
  rw [fl_eval 5 (by norm_num) (by norm_num) (by norm_num)]
  norm_num [roundHalfEvenZ]

lemma flEval_737_20 : fl (737 / 20 : ℚ) = 5186176445893837 / 2 ^ 47 := by
  rw [fl_eval 5 (by norm_num) (by norm_num) (by norm_num)]
  norm_num [roundHalfEvenZ]

lemma flEval_3667_100 : fl (3667 / 100 : ℚ) = 2580421848994939 / 2 ^ 46 := by
  rw [fl_eval 5 (by norm_num) (by norm_num) (by norm_num)]
  norm_num [roundHalfEvenZ]

lemma flEval_917_25 : fl (917 / 25 : ℚ) = 5162251072873431 / 2 ^ 47 := by
  rw [fl_eval 5 (by norm_num) (by norm_num) (by norm_num)]
  norm_num [roundHalfEvenZ]

lemma flEval_buyStep1 :
    fl (10287910398774477 / 2 ^ 47 : ℚ) = 2571977599693619 / 2 ^ 45 := by
  rw [fl_eval 6 (by norm_num) (by norm_num) (by norm_num)]
  norm_num [roundHalfEvenZ]

lemma flEval_buyStep2 : fl (15410754974908415 / 2 ^ 47 : ℚ) = 219 / 2 := by
  rw [fl_eval 6 (by norm_num) (by norm_num) (by norm_num)]
  norm_num [roundHalfEvenZ]

lemma flEval_sellFirst :
    fl (2589569785738035 / 2 ^ 46 : ℚ) = 2589569785738035 / 2 ^ 46 := by
  rw [fl_eval 5 (by norm_num) (by norm_num) (by norm_num)]
  norm_num [roundHalfEvenZ]

lemma flEval_sellStep :
    fl (10372352891787673 / 2 ^ 47 : ℚ) = 1296544111473459 / 2 ^ 44 := by
  rw [fl_eval 6 (by norm_num) (by norm_num) (by norm_num)]
  norm_num [roundHalfEvenZ]

lemma flEval_sellMean :
    fl (1296544111473459 / 2 ^ 45 : ℚ) = 1296544111473459 / 2 ^ 45 := by
  rw [fl_eval 5 (by norm_num) (by norm_num) (by norm_num)]
  norm_num [roundHalfEvenZ]

lemma flEval_totSum :
    fl (2580773692715827 / 2 ^ 45 : ℚ) = 2580773692715827 / 2 ^ 45 := by
  rw [fl_eval 6 (by norm_num) (by norm_num) (by norm_num)]
  norm_num [roundHalfEvenZ]

lemma flEval_halfTot :
    fl (2580773692715827 / 2 ^ 46 : ℚ) = 2580773692715827 / 2 ^ 46 := by
  rw [fl_eval 5 (by norm_num) (by norm_num) (by norm_num)]
  norm_num [roundHalfEvenZ]

lemma pyR2_meanB : pyRound2 (73 / 2 : ℚ) = 73 / 2 := by
  norm_num [pyRound2, roundHalfEvenZ]

lemma pyR2_meanS : pyRound2 (1296544111473459 / 2 ^ 45 : ℚ) = 737 / 20 := by
  norm_num [pyRound2, roundHalfEvenZ]

lemma pyR2_market : pyRound2 (2580773692715827 / 2 ^ 46 : ℚ) = 3667 / 100 := by
  norm_num [pyRound2, roundHalfEvenZ]

lemma meanF_two (a b : ℚ) : meanF [a, b] = divF (addF (addF 0 a) b) 2 := by
  simp [meanF, sumF]

lemma meanF_three (a b c : ℚ) :
    meanF [a, b, c] = divF (addF (addF (addF 0 a) b) c) 3 := by
  simp [meanF, sumF]

lemma fetchAverageF_buyA :
    fetchAverageF [(36.50 : ℚ), 36.60, 36.40] = 73 / 2 := by
  rw [show (36.50 : ℚ) = 73 / 2 by norm_num,
    show (36.60 : ℚ) = 183 / 5 by norm_num,
    show (36.40 : ℚ) = 182 / 5 by norm_num]
  unfold fetchAverageF
  rw [List.map_cons, List.map_cons, List.map_cons, List.map_nil,
    flEval_73_2, flEval_183_5, flEval_182_5, meanF_three]
  have h1 : addF 0 (73 / 2 : ℚ) = 73 / 2 := by
    unfold addF
    rw [zero_add, flEval_73_2]
  rw [h1]
  have h2 : addF (73 / 2 : ℚ) (5150992073805005 / 2 ^ 47) =
      2571977599693619 / 2 ^ 45 := by
    unfold addF
    rw [show (73 / 2 : ℚ) + 5150992073805005 / 2 ^ 47 =
      10287910398774477 / 2 ^ 47 by norm_num, flEval_buyStep1]
  rw [h2]
  have h3 : addF (2571977599693619 / 2 ^ 45 : ℚ) (5122844576133939 / 2 ^ 47) =
      219 / 2 := by
    unfold addF
    rw [show (2571977599693619 / 2 ^ 45 : ℚ) + 5122844576133939 / 2 ^ 47 =
      15410754974908415 / 2 ^ 47 by norm_num, flEval_buyStep2]
  rw [h3]
  unfold divF
  rw [show (219 / 2 : ℚ) / 3 = 73 / 2 by norm_num, flEval_73_2]

lemma fetchAverageF_sellA :
    fetchAverageF [(36.80 : ℚ), 36.90] = 1296544111473459 / 2 ^ 45 := by
  rw [show (36.80 : ℚ) = 184 / 5 by norm_num,
    show (36.90 : ℚ) = 369 / 10 by norm_num]
  unfold fetchAverageF
  rw [List.map_cons, List.map_cons, List.map_nil,
    flEval_184_5, flEval_369_10, meanF_two]
  have h1 : addF 0 (2589569785738035 / 2 ^ 46 : ℚ) = 2589569785738035 / 2 ^ 46 := by
    unfold addF
    rw [zero_add, flEval_sellFirst]
  rw [h1]
  have h2 : addF (2589569785738035 / 2 ^ 46 : ℚ) (5193213320311603 / 2 ^ 47) =
      1296544111473459 / 2 ^ 44 := by
    unfold addF
    rw [show (2589569785738035 / 2 ^ 46 : ℚ) + 5193213320311603 / 2 ^ 47 =
      10372352891787673 / 2 ^ 47 by norm_num, flEval_sellStep]
  rw [h2]
  unfold divF
  rw [show (1296544111473459 / 2 ^ 44 : ℚ) / 2 = 1296544111473459 / 2 ^ 45 by norm_num,
    flEval_sellMean]

lemma addF_means_A :
    addF (73 / 2 : ℚ) (1296544111473459 / 2 ^ 45) = 2580773692715827 / 2 ^ 45 := by
  unfold addF
  rw [show (73 / 2 : ℚ) + 1296544111473459 / 2 ^ 45 =
    2580773692715827 / 2 ^ 45 by norm_num, flEval_totSum]

lemma divF_tot_A :
    divF (2580773692715827 / 2 ^ 45 : ℚ) 2 = 2580773692715827 / 2 ^ 46 := by
  unfold divF
  rw [show (2580773692715827 / 2 ^ 45 : ℚ) / 2 =
    2580773692715827 / 2 ^ 46 by norm_num, flEval_halfTot]

lemma marketAverageF_A :
    marketAverageF (73 / 2 : ℚ) (1296544111473459 / 2 ^ 45) =
      2580421848994939 / 2 ^ 46 := by
  unfold marketAverageF
  rw [addF_means_A, divF_tot_A]
  unfold pyRound2F
  rw [pyR2_market, flEval_3667_100]

/-- C9 counterexample: at the Scenario A prices the double-precision market
average is the double nearest 36.67, while the claim asserts 36.68: the
claimed ideal value round((36.50 + 36.85) / 2, 2) is indeed 36.68, but the
value the program computes differs from 36.68 and from the double nearest
36.68. -/
theorem scenario_a_double_cex :
    marketAverageF (fetchAverageF [(36.50 : ℚ), 36.60, 36.40])
        (fetchAverageF [(36.80 : ℚ), 36.90]) = fl 36.67 ∧
    pyRound2 ((36.50 + 36.85 : ℚ) / 2) = 36.68 ∧
    fl 36.67 ≠ (36.68 : ℚ) ∧
    fl 36.67 ≠ fl 36.68 := by
  have h67 : fl (36.67 : ℚ) = 2580421848994939 / 2 ^ 46 := by
    rw [show (36.67 : ℚ) = 3667 / 100 by norm_num]
    exact flEval_3667_100
  have h68 : fl (36.68 : ℚ) = 5162251072873431 / 2 ^ 47 := by
    rw [show (36.68 : ℚ) = 917 / 25 by norm_num]
    exact flEval_917_25
  refine ⟨?_, ?_, ?_, ?_⟩
  · rw [fetchAverageF_buyA, fetchAverageF_sellA, marketAverageF_A, h67]
  · norm_num [pyRound2, roundHalfEvenZ]
  · rw [h67]
    norm_num
  · rw [h67, h68]
    norm_num

/-- C9 amended: Scenario A at double precision, as the program computes it.
The buy average is exactly 36.50; the sell average is the double below
36.85 (36.849999999999994); the rounded buy and sell values are the doubles
nearest 36.50 and 36.85; the unrounded market mean is the double below
36.675 (36.674999999999997), so the rounded market average is the double
nearest 36.67, not 36.68. -/
theorem scenario_a_double_values :
    fetchAverageF [(36.50 : ℚ), 36.60, 36.40] = 73 / 2 ∧
    fetchAverageF [(36.80 : ℚ), 36.90] = 1296544111473459 / 2 ^ 45 ∧
    (1296544111473459 / 2 ^ 45 : ℚ) < 36.85 ∧
    pyRound2F (fetchAverageF [(36.50 : ℚ), 36.60, 36.40]) = fl 36.50 ∧
    pyRound2F (fetchAverageF [(36.80 : ℚ), 36.90]) = fl 36.85 ∧
    divF (addF (fetchAverageF [(36.50 : ℚ), 36.60, 36.40])
        (fetchAverageF [(36.80 : ℚ), 36.90])) 2 = 2580773692715827 / 2 ^ 46 ∧
    (2580773692715827 / 2 ^ 46 : ℚ) < 36.675 ∧
    marketAverageF (fetchAverageF [(36.50 : ℚ), 36.60, 36.40])
        (fetchAverageF [(36.80 : ℚ), 36.90]) = fl 36.67 := by
  have h50 : fl (36.50 : ℚ) = 73 / 2 := by
    rw [show (36.50 : ℚ) = 73 / 2 by norm_num]
    exact flEval_73_2
  have h85 : fl (36.85 : ℚ) = 5186176445893837 / 2 ^ 47 := by
    rw [show (36.85 : ℚ) = 737 / 20 by norm_num]
    exact flEval_737_20
  have h67 : fl (36.67 : ℚ) = 2580421848994939 / 2 ^ 46 := by
    rw [show (36.67 : ℚ) = 3667 / 100 by norm_num]
    exact flEval_3667_100
  refine ⟨fetchAverageF_buyA, fetchAverageF_sellA, by norm_num, ?_, ?_, ?_, by norm_num, ?_⟩
  · rw [fetchAverageF_buyA, h50]
    unfold pyRound2F
    rw [pyR2_meanB, flEval_73_2]
  · rw [fetchAverageF_sellA, h85]
    unfold pyRound2F
    rw [pyR2_meanS, flEval_737_20]
  · rw [fetchAverageF_buyA, fetchAverageF_sellA, addF_means_A, divF_tot_A]
  · rw [fetchAverageF_buyA, fetchAverageF_sellA, marketAverageF_A, h67]

/-- C10: the HTTP helper issues a GET, with no body, for every method whose
upper-cased form differs from POST, and issues a POST carrying the body
exactly when the upper-cased method equals POST. -/
theorem method_dispatch_get_default (url method : String)
    (headers : List (String × String)) (body : Option String) :
    (pyUpper method ≠ "POST" →
      fetch_with_timeout url method headers body = HttpRequest.get url headers) ∧
    (pyUpper method = "POST" →
      fetch_with_timeout url method headers body = HttpRequest.post url headers body) := by
  constructor
  · intro h
    simp [fetch_with_timeout, h]
  · intro h
    simp [fetch_with_timeout, h]

/-- C10 witness: the method delete, not upper-casing to POST, produces a GET
without the provided body, while the method post produces a POST with it. -/
theorem method_dispatch_get_default_witness :
    pyUpper "delete" ≠ "POST" ∧
    fetch_with_timeout "u" "delete" [] (some "b") = HttpRequest.get "u" [] ∧
    fetch_with_timeout "u" "post" [] (some "b") = HttpRequest.post "u" [] (some "b") := by
  refine ⟨by decide, ?_, ?_⟩
  · exact (method_dispatch_get_default "u" "delete" [] (some "b")).1 (by decide)
  · exact (method_dispatch_get_default "u" "post" [] (some "b")).2 (by decide)

end BinanceP2P
